import Mathlib

/-!
Verification of the AABB tree (`common/src/AABBTree.h`), a height-balanced
bounding-volume tree template `AABBTree<T, S, U, EQ>` with incremental
insertion, removal, and local rebalancing.

Shallow embedding, faithful to the source:
* The bounding-box type is consumed abstractly (the source includes it from
  `BBox.h`, outside this component): `BoxOps β` supplies `contains`,
  `mergedWith` and `volume` exactly as the source uses them.  Volume
  differences are compared with `<=`; we give `volume` values in `Int`.
  A concrete one-dimensional integer instance `box1Ops` is used for
  concrete executions.
* A node value carries the cached fields of the C++ object: a leaf stores
  `(m_bounds, m_data)`; an inner node stores
  `(m_left, m_right, m_height, m_bounds)`.
* Pointer identity matters in the source (`newChild != child` in
  `InnerNode::doRemove`, `newRoot != m_root` in `AABBTree::remove`).  Every
  `Node::remove` in the source returns either `nullptr`, `this`, or a node
  distinct from `this` (the detached sibling); we model the result as
  `RRes`: `.null`, `.same v` (it returned `this`, whose pointee now has
  value `v`), `.repl v` (it returned a different node with value `v`).
* `insert`, `remove` and `rebalance` are mutually recursive with no
  structural measure in the source, so the embedding takes fuel; `none`
  means the fuel ran out, or the one reachable null-pointer write
  (`InnerNode::rebalance(higher, lower)` storing a `nullptr` returned by
  `higher->remove` and dereferencing it later, undefined behavior in C++).
* In `InnerNode::rebalance()` the source recomputes this node's bounds and
  height BEFORE relocating a leaf (`updateBounds(); updateHeight();
  rebalance();` in both `insert` and `doRemove`), and the relocation does
  not refresh them; the embedding reproduces this ordering exactly.
-/

/-- Contract of the external bounding-box value type, as consumed by the
tree: `contains` (non-strict enclosure), `mergedWith` (smallest enclosing
box), `volume`. -/
structure BoxOps (β : Type) where
  contains : β → β → Bool
  mergedWith : β → β → β
  volume : β → Int

/-- Tree nodes. A leaf stores `m_bounds` and `m_data`; an inner node stores
its two owned children, the cached `m_height`, and the cached `m_bounds`. -/
inductive Node (β : Type) (υ : Type) where
  | leaf (bounds : β) (data : υ)
  | inner (left : Node β υ) (right : Node β υ) (hgt : Nat) (bounds : β)
  deriving Repr, DecidableEq

namespace Node

/-- Source `Leaf::height` (always 1) and `InnerNode::height` (the cached
`m_height`). -/
def height : Node β υ → Nat
  | leaf _ _ => 1
  | inner _ _ h _ => h

/-- Source `Node::bounds` (the cached `m_bounds`). -/
def bounds : Node β υ → β
  | leaf b _ => b
  | inner _ _ _ b => b

/-- Source `Leaf::balance` (always 0) and `InnerNode::balance`
(`right->height() - left->height()` over cached heights, as `int`). -/
def balance : Node β υ → Int
  | leaf _ _ => 0
  | inner l r _ _ => (r.height : Int) - (l.height : Int)

end Node

/-- Source `InnerNode::selectLeastIncreaser(node1, node2, bounds)`: true iff
the first argument is selected, i.e. its volume increase is `<=` the
second's. -/
def selectLeastIncreaser (ops : BoxOps β) (b1 b2 qb : β) : Bool :=
  let diff1 := ops.volume (ops.mergedWith b1 qb) - ops.volume b1
  let diff2 := ops.volume (ops.mergedWith b2 qb) - ops.volume b2
  decide (diff1 ≤ diff2)

/-- Source `InnerNode::InnerNode(left, right)` (and equally the
`updateBounds(); updateHeight();` pair): bounds is the merge of the
children's bounds, height is `max(child heights) + 1`. -/
def mkInner (ops : BoxOps β) (l r : Node β υ) : Node β υ :=
  .inner l r (max l.height r.height + 1) (ops.mergedWith l.bounds r.bounds)

/-- Source `Node::findRebalanceCandidate(bounds)`: the leaf of this subtree
chosen by pairwise `selectLeastIncreaser`; we return its (bounds, data). -/
def findRebalanceCandidate (ops : BoxOps β) : Node β υ → β → β × υ
  | .leaf b d, _ => (b, d)
  | .inner l r _ _, qb =>
    let c1 := findRebalanceCandidate ops l qb
    let c2 := findRebalanceCandidate ops r qb
    if selectLeastIncreaser ops c1.1 c2.1 qb then c1 else c2

/-- Result of `Node::remove` in the source: `nullptr`; `this` (whose pointee
now holds value `n`); or a node different from `this` holding `n` (the
detached sibling). -/
inductive RRes (β : Type) (υ : Type) where
  | null
  | same (n : Node β υ)
  | repl (n : Node β υ)
  deriving Repr, DecidableEq

mutual

/-- Source `Leaf::insert` (allocate an inner node with this leaf as left
child and a fresh leaf as right child) and `InnerNode::insert` (descend
into the least-increaser child, then `updateBounds(); updateHeight();
rebalance();` and return `this`). -/
def insertN (ops : BoxOps β) (eq : υ → υ → Bool) :
    Nat → Node β υ → β → υ → Option (Node β υ)
  | 0, _, _, _ => none
  | _fuel+1, .leaf lb ld, b, d =>
    some (mkInner ops (.leaf lb ld) (.leaf b d))
  | fuel+1, .inner l r _h _bb, b, d =>
    if selectLeastIncreaser ops l.bounds r.bounds b then
      match insertN ops eq fuel l b d with
      | none => none
      | some l' => rebalanceN ops eq fuel (mkInner ops l' r)
    else
      match insertN ops eq fuel r b d with
      | none => none
      | some r' => rebalanceN ops eq fuel (mkInner ops l r')

/-- Source `InnerNode::rebalance()` (a no-op on a leaf, which never
rebalances): trigger when the cached child heights differ by more than 1.
Note the node's own cached height and bounds are NOT recomputed afterwards;
the source calls `rebalance()` strictly after `updateBounds();
updateHeight();`. -/
def rebalanceN (ops : BoxOps β) (eq : υ → υ → Bool) :
    Nat → Node β υ → Option (Node β υ)
  | 0, _ => none
  | _fuel+1, .leaf b d => some (.leaf b d)
  | fuel+1, .inner l r h bb =>
    if l.height > r.height ∧ l.height - r.height > 1 then
      match rebalancePairN ops eq fuel l r with
      | none => none
      | some (l', r') => some (.inner l' r' h bb)
    else if r.height > l.height ∧ r.height - l.height > 1 then
      match rebalancePairN ops eq fuel r l with
      | none => none
      | some (r', l') => some (.inner l' r' h bb)
    else some (.inner l r h bb)

/-- Source `InnerNode::rebalance(higher, lower)`: find the rebalance
candidate in `higher` against `lower`'s bounds, remove its (bounds, data)
from `higher`, insert it into `lower`.  If `higher->remove` returns
`nullptr` the source stores a null child pointer and later dereferences it
(undefined behavior); that is the `.null => none` case. -/
def rebalancePairN (ops : BoxOps β) (eq : υ → υ → Bool) :
    Nat → Node β υ → Node β υ → Option (Node β υ × Node β υ)
  | 0, _, _ => none
  | fuel+1, higher, lower =>
    let c := findRebalanceCandidate ops higher lower.bounds
    match removeN ops eq fuel higher c.1 c.2 with
    | none => none
    | some .null => none
    | some (.same hN) =>
      match insertN ops eq fuel lower c.1 c.2 with
      | none => none
      | some lo' => some (hN, lo')
    | some (.repl hN) =>
      match insertN ops eq fuel lower c.1 c.2 with
      | none => none
      | some lo' => some (hN, lo')

/-- Source `Leaf::remove` (null iff `eq(data, m_data)`) and
`InnerNode::remove` (run `doRemove` on (left, right), then on
(right, left)).  The local function `step2` is the second `doRemove`; it
takes the current value of the left slot, which the first `doRemove` may
have mutated in place (`newChild == child` branch, where the source takes
no action even though the pointee changed).  Returning `some .null` means
the source returns `nullptr`; the caller then deletes this whole node, so
any in-place mutations of its children are discarded with it. -/
def removeN (ops : BoxOps β) (eq : υ → υ → Bool) :
    Nat → Node β υ → β → υ → Option (RRes β υ)
  | 0, _, _, _ => none
  | _fuel+1, .leaf lb ld, _b, d =>
    if eq d ld then some .null else some (.same (.leaf lb ld))
  | fuel+1, .inner l r _h _bb, b, d =>
    let step2 : Node β υ → Option (RRes β υ) := fun lCur =>
      if ops.contains r.bounds b then
        match removeN ops eq fuel r b d with
        | none => none
        | some .null => some (.repl lCur)
        | some (.same _) => some .null
        | some (.repl r') =>
          (rebalanceN ops eq fuel (mkInner ops lCur r')).map RRes.same
      else some .null
    if ops.contains l.bounds b then
      match removeN ops eq fuel l b d with
      | none => none
      | some .null => some (.repl r)
      | some (.same l') => step2 l'
      | some (.repl l') =>
        (rebalanceN ops eq fuel (mkInner ops l' r)).map RRes.same
    else step2 l

end

/-- Source `AABBTree`: `m_root` is a nullable owning pointer; `none` is the
empty tree. -/
abbrev AABBTree (β υ : Type) := Option (Node β υ)

/-- Source `AABBTree::insert(bounds, data)`. -/
def insertT (ops : BoxOps β) (eq : υ → υ → Bool) (fuel : Nat)
    (t : AABBTree β υ) (b : β) (d : υ) : Option (AABBTree β υ) :=
  match t with
  | none => some (some (.leaf b d))
  | some root => (insertN ops eq fuel root b d).map some

/-- Source `AABBTree::remove(bounds, data)`: returns the boolean result and
the new tree. Empty tree: `false`. Root bounds does not contain the query
box: `false`, tree untouched. Otherwise the root's `remove` runs and the
function returns `true`; a `nullptr` result empties the tree, a different
node replaces the root, and `this` keeps the (possibly mutated) root. -/
def removeT (ops : BoxOps β) (eq : υ → υ → Bool) (fuel : Nat)
    (t : AABBTree β υ) (b : β) (d : υ) : Option (Bool × AABBTree β υ) :=
  match t with
  | none => some (false, none)
  | some root =>
    if ops.contains root.bounds b then
      match removeN ops eq fuel root b d with
      | none => none
      | some .null => some (true, none)
      | some (.same n) => some (true, some n)
      | some (.repl n) => some (true, some n)
    else some (false, some root)

/-- Source `AABBTree::empty`. -/
def emptyT : AABBTree β υ → Bool
  | none => true
  | some _ => false

/-- Source `AABBTree::height`: 0 for the empty tree, else the root's cached
height. -/
def heightT : AABBTree β υ → Nat
  | none => 0
  | some root => root.height

/-- Source `AABBTree::bounds`: `none` models the NaN-sentinel box
(`Box(Vec::NaN, Vec::NaN)`) the source returns for an empty tree; a NaN box
has no counterpart over exact numerics, so the sentinel is made explicit. -/
def boundsT : AABBTree β υ → Option β
  | none => none
  | some root => some root.bounds

/-! Concrete instance used for concrete executions: one-dimensional integer
boxes (the `T = int, S = 1` reading of the template), `Nat` payloads, and
the default `EQ = std::equal_to` (value equality). -/

/-- One-dimensional box `[lo, hi]`. -/
structure Box1 where
  lo : Int
  hi : Int
  deriving Repr, DecidableEq

/-- Box contract for `Box1`: non-strict enclosure, convex hull merge,
length as volume. -/
def box1Ops : BoxOps Box1 where
  contains a b := decide (a.lo ≤ b.lo ∧ b.hi ≤ a.hi)
  mergedWith a b := ⟨min a.lo b.lo, max a.hi b.hi⟩
  volume a := a.hi - a.lo

/-- Default payload equality (`std::equal_to<U>` for `U = Nat`). -/
def natEq (a b : Nat) : Bool := a == b

/-! Structural observations and invariant checkers. -/

/-- Height recomputed from the structure, ignoring the cached `m_height`. -/
def Node.realHeight : Node β υ → Nat
  | .leaf _ _ => 1
  | .inner l r _ _ => max l.realHeight r.realHeight + 1

/-- Number of leaves in a subtree. -/
def Node.leafCount : Node β υ → Nat
  | .leaf _ _ => 1
  | .inner l r _ _ => l.leafCount + r.leafCount

/-- Invariant I2: every inner node's cached height equals
`1 + max(child heights)`. -/
def Node.heightOk : Node β υ → Bool
  | .leaf _ _ => true
  | .inner l r h _ =>
    (h == max l.height r.height + 1) && l.heightOk && r.heightOk

/-- Invariant I1 (inner part): every inner node's bounds equals the merge of
its children's bounds. -/
def Node.boundsOk [DecidableEq β] (ops : BoxOps β) : Node β υ → Bool
  | .leaf _ _ => true
  | .inner l r _ bb =>
    (bb == ops.mergedWith l.bounds r.bounds) && l.boundsOk ops && r.boundsOk ops

/-- Invariant I3 over cached heights: `|balance| ≤ 1` at every inner node. -/
def Node.balanceOk : Node β υ → Bool
  | .leaf _ _ => true
  | .inner l r _ _ =>
    (((r.height : Int) - (l.height : Int)).natAbs ≤ 1 : Bool) &&
      l.balanceOk && r.balanceOk

/-- Invariant I3 over real (structural) heights. -/
def Node.realBalanceOk : Node β υ → Bool
  | .leaf _ _ => true
  | .inner l r _ _ =>
    (((r.realHeight : Int) - (l.realHeight : Int)).natAbs ≤ 1 : Bool) &&
      l.realBalanceOk && r.realBalanceOk

/-- Tree-level I2 check. -/
def heightOkT : AABBTree β υ → Bool
  | none => true
  | some n => n.heightOk

/-- Tree-level I1 check. -/
def boundsOkT [DecidableEq β] (ops : BoxOps β) : AABBTree β υ → Bool
  | none => true
  | some n => n.boundsOk ops

/-- Tree-level I3 check over real heights. -/
def realBalanceOkT : AABBTree β υ → Bool
  | none => true
  | some n => n.realBalanceOk

/-- Tree-level real height. -/
def realHeightT : AABBTree β υ → Nat
  | none => 0
  | some n => n.realHeight

/-- The balanced four-leaf tree `{[0,1]·1, [2,3]·2 | [10,11]·3, [12,13]·4}`,
built with correct caches; it satisfies I1, I2 and I3. -/
def tree4 : Node Box1 Nat :=
  mkInner box1Ops
    (mkInner box1Ops (.leaf ⟨0, 1⟩ 1) (.leaf ⟨2, 3⟩ 2))
    (mkInner box1Ops (.leaf ⟨10, 11⟩ 3) (.leaf ⟨12, 13⟩ 4))

/-- Twelve insertions of the identical box `[0,1]` with the identical
payload `0` (duplicate entries, which the component tolerates by design),
starting from the empty tree. -/
def dupTree12 : Option (AABBTree Box1 Nat) :=
  (List.range 12).foldlM
    (fun t _ => insertT box1Ops natEq 50 t ⟨0, 1⟩ 0) none

/-- Four insertions of the identical box `[0,1]` with distinct payloads
0, 1, 2, 3, starting from the empty tree. -/
def idTree4 : Option (AABBTree Box1 Nat) :=
  (List.range 4).foldlM
    (fun t i => insertT box1Ops natEq 50 t ⟨0, 1⟩ i) none

/-- Six insertions `([0,1],0), ([2,3],1), ([2,3],2), ([2,3],3), ([0,5],4),
([10,11],5)`, starting from the empty tree. -/
def sixTree : Option (AABBTree Box1 Nat) :=
  [((⟨0, 1⟩ : Box1), 0), (⟨2, 3⟩, 1), (⟨2, 3⟩, 2), (⟨2, 3⟩, 3),
      (⟨0, 5⟩, 4), (⟨10, 11⟩, 5)].foldlM
    (fun t p => insertT box1Ops natEq 50 t p.1 p.2) none

/-- The scenario tree: boxes `[0,1]`, `[2,3]`, `[10,11]` inserted with
payloads 0, 1, 2 into the empty tree. -/
def scenarioTree : Option (AABBTree Box1 Nat) :=
  [((⟨0, 1⟩ : Box1), 0), (⟨2, 3⟩, 1), (⟨10, 11⟩, 2)].foldlM
    (fun t p => insertT box1Ops natEq 50 t p.1 p.2) none

/-- C1 — The claim says `remove(bounds, data)` with no EQ-matching leaf
returns `false` and leaves the tree unchanged.  The code violates it: on
the two-leaf tree `{([0,10],0), ([2,3],1)}`, removing `([2,3], 2)` (payload
2 matches no leaf) returns `true` and deletes the ENTIRE tree.
`InnerNode::remove` reports "not found" as `nullptr`, which
`AABBTree::remove` interprets as "the root was the matched leaf", deletes
`m_root`, and returns `true`. -/
theorem remove_not_found_wipes_tree :
    ((insertT box1Ops natEq 10 none ⟨0, 10⟩ 0).bind (fun t =>
        insertT box1Ops natEq 10 t ⟨2, 3⟩ 1)).bind (fun t =>
        removeT box1Ops natEq 10 t ⟨2, 3⟩ 2) = some (true, none) := by
  decide

/-- C2 — The claim says after every operation every inner node satisfies
`|balance| ≤ 1` (balance = right child height − left child height).  The
code violates it: after twelve inserts of the identical box/payload pair
`([0,1], 0)` into the empty tree, some inner node's children have real
(structural) heights differing by 2.  The cached heights hide the imbalance
because `InnerNode::rebalance()` runs after `updateHeight()` and never
refreshes the caches, and the relocation's inner `remove` EQ-matches a
different duplicate leaf than the chosen candidate. -/
theorem twelve_duplicate_inserts_break_balance :
    dupTree12.map realBalanceOkT = some false := by
  decide

/-- C3 — The claim says after every operation every inner node's bounds
equals the merge of its children's bounds (I1).  The code violates it:
after the six inserts of `sixTree` the root's cached bounds is `[0,11]`
while the merge of its children's bounds is `[0,5]` (a rebalance relocation
went through the `doRemove` not-found/`nullptr` conflation, silently
dropping the `[0,1]` and `[10,11]` leaves and duplicating another, and the
ancestors' cached bounds were never recomputed). -/
theorem six_inserts_break_bounds_invariant :
    sixTree.map (boundsOkT box1Ops) = some false := by
  decide

/-- C4 — The claim says every inner node's cached height equals
`1 + max(child heights)` and every leaf's height is 1 (I2).  The code
violates the inner part: after four inserts of box `[0,1]` with payloads
0–3 the root's cached height is 4 while both children have height 2, so
`1 + max` is 3.  `InnerNode::insert` runs `updateHeight()` BEFORE
`rebalance()`, and the rebalancing relocation lowers the subtree without
refreshing the cache. -/
theorem four_inserts_break_height_invariant :
    idTree4.map heightOkT = some false ∧
      idTree4.map heightT = some 4 ∧ idTree4.map realHeightT = some 3 := by
  refine ⟨by decide, by decide, by decide⟩

/-- C5 — The claim says insert(b, d) followed by remove(b, d) returns
`true` and restores the leaf count and invariants I1–I3.  The code violates
it: `tree4` satisfies I1–I3 and has four leaves; inserting `([0,1], 99)`
and then removing `([0,1], 99)` returns `true` but leaves the EMPTY tree —
all four original leaves are destroyed.  The fresh leaf sits at depth 4;
its grandparent returns `this` after the promotion below it, the root
treats that as "not found", finds nothing on the right either, returns
`nullptr`, and `AABBTree::remove` deletes the whole tree. -/
theorem insert_remove_round_trip_wipes_tree :
    (tree4.heightOk && tree4.boundsOk box1Ops && tree4.balanceOk &&
        tree4.realBalanceOk) = true ∧
      tree4.leafCount = 4 ∧
      (insertT box1Ops natEq 20 (some tree4) ⟨0, 1⟩ 99).bind (fun t =>
        removeT box1Ops natEq 20 t ⟨0, 1⟩ 99) = some (true, none) := by
  refine ⟨by decide, by decide, by decide⟩

/-- C6 — Confirmed: on any non-empty tree, `remove` with a box not
contained in the root's bounds returns `false` and leaves the tree exactly
as it was (the containment pre-check fails and the function returns before
touching any node). -/
theorem remove_not_contained_returns_false_unchanged
    (ops : BoxOps β) (eq : υ → υ → Bool) (fuel : Nat)
    (root : Node β υ) (b : β) (d : υ)
    (hc : ops.contains root.bounds b = false) :
    removeT ops eq fuel (some root) b d = some (false, some root) := by
  simp [removeT, hc]

/-- Witness for C6 at a concrete input: the single-leaf tree over `[0,1]`
and the non-contained query box `[5,6]`. -/
theorem remove_not_contained_witness :
    box1Ops.contains (Node.leaf (⟨0, 1⟩ : Box1) 0).bounds ⟨5, 6⟩ = false ∧
      removeT box1Ops natEq 10 (some (.leaf ⟨0, 1⟩ 0)) ⟨5, 6⟩ 1 =
        some (false, some (.leaf ⟨0, 1⟩ 0)) :=
  ⟨by decide,
    remove_not_contained_returns_false_unchanged box1Ops natEq 10
      (.leaf ⟨0, 1⟩ 0) ⟨5, 6⟩ 1 (by decide)⟩

/-- C7 — Confirmed: at every inner node, insertion recurses into the child
whose volume increase `volume(merge(child.bounds, B)) − volume(child.bounds)`
is smaller, and into the left child on ties (the `<=` comparison of
`selectLeastIncreaser` favors the first argument, which `InnerNode::insert`
passes `m_left` as); this holds at each inner node along the descent since
`insertN` applies the same selection at every level. -/
theorem insert_descends_into_least_increaser
    (ops : BoxOps β) (eq : υ → υ → Bool) (fuel : Nat)
    (l r : Node β υ) (h : Nat) (bb : β) (b : β) (d : υ) :
    insertN ops eq (fuel + 1) (.inner l r h bb) b d =
      if ops.volume (ops.mergedWith l.bounds b) - ops.volume l.bounds ≤
          ops.volume (ops.mergedWith r.bounds b) - ops.volume r.bounds then
        match insertN ops eq fuel l b d with
        | none => none
        | some l2 => rebalanceN ops eq fuel (mkInner ops l2 r)
      else
        match insertN ops eq fuel r b d with
        | none => none
        | some r2 => rebalanceN ops eq fuel (mkInner ops l r2) := by
  by_cases hle : ops.volume (ops.mergedWith l.bounds b) - ops.volume l.bounds ≤
      ops.volume (ops.mergedWith r.bounds b) - ops.volume r.bounds <;>
    simp [insertN, selectLeastIncreaser, hle]

/-- C8 — Confirmed: inserting `A=[0,1]`, `B=[2,3]`, `C=[10,11]` with
payloads 0, 1, 2 into the empty tree gives height 3 (within the claimed
range 2–3) and root bounds `[0,11]`; removing `([2,3], 1)` then returns
`true` and leaves root bounds `[0,11]` and height 2. -/
theorem scenario_three_boxes :
    scenarioTree.map (fun t =>
        (decide (2 ≤ heightT t) && decide (heightT t ≤ 3), heightT t,
          boundsT t)) = some (true, 3, some ⟨0, 11⟩) ∧
      (scenarioTree.bind (fun t =>
          removeT box1Ops natEq 50 t ⟨2, 3⟩ 1)).map (fun p =>
        (p.1, heightT p.2, boundsT p.2)) = some (true, 2, some ⟨0, 11⟩) := by
  refine ⟨by decide, by decide⟩

/-- C9 — Confirmed: a freshly constructed tree is empty, reports height 0,
and `bounds()` yields the sentinel (the NaN box, modeled as `none`); and
after removing the last remaining leaf (any query box the leaf's bounds
contains, any EQ-matching payload) the tree is again `none`, for which
`empty`, `height` and `bounds` give the same three answers. -/
theorem empty_tree_behavior
    (ops : BoxOps β) (eq : υ → υ → Bool) (fuel : Nat)
    (b : β) (d : υ) (b2 : β) (d2 : υ)
    (hc : ops.contains b b2 = true) (he : eq d2 d = true) :
    emptyT (none : AABBTree β υ) = true ∧
      heightT (none : AABBTree β υ) = 0 ∧
      boundsT (none : AABBTree β υ) = none ∧
      removeT ops eq (fuel + 1) (some (.leaf b d)) b2 d2 = some (true, none) := by
  refine ⟨rfl, rfl, rfl, ?_⟩
  simp [removeT, Node.bounds, hc, removeN, he]

/-- Witness for C9 at a concrete input: the single-leaf tree `([0,1], 3)`
and the exact same box and payload. -/
theorem empty_tree_behavior_witness :
    box1Ops.contains (⟨0, 1⟩ : Box1) ⟨0, 1⟩ = true ∧ natEq 3 3 = true ∧
      (emptyT (none : AABBTree Box1 Nat) = true ∧
        heightT (none : AABBTree Box1 Nat) = 0 ∧
        boundsT (none : AABBTree Box1 Nat) = none ∧
        removeT box1Ops natEq 6 (some (.leaf ⟨0, 1⟩ 3)) ⟨0, 1⟩ 3 =
          some (true, none)) :=
  ⟨by decide, by decide,
    empty_tree_behavior box1Ops natEq 5 ⟨0, 1⟩ 3 ⟨0, 1⟩ 3
      (by decide) (by decide)⟩

/-- C10 — Confirmed: whenever `remove` on a non-empty tree returns, its
boolean result equals the root-containment test alone: `true` whenever the
root's bounds contains the query box (regardless of whether any leaf's
payload EQ-matched), `false` otherwise.  Every arm of the contained branch
of `AABBTree::remove` returns `true`. -/
theorem remove_result_is_containment_test
    (ops : BoxOps β) (eq : υ → υ → Bool) (fuel : Nat)
    (root : Node β υ) (b : β) (d : υ) (p : Bool × AABBTree β υ)
    (hp : removeT ops eq fuel (some root) b d = some p) :
    p.1 = ops.contains root.bounds b := by
  by_cases hc : ops.contains root.bounds b = true
  · rcases hrm : removeN ops eq fuel root b d with _ | rr
    · simp [removeT, hc, hrm] at hp
    · rcases rr with _ | n | n <;> simp [removeT, hc, hrm] at hp <;>
        simp [← hp, hc]
  · simp [removeT, Bool.not_eq_true] at hc
    simp [removeT, hc] at hp
    simp [← hp, hc]

/-- Witness for C10 at a concrete input: the single-leaf tree `([0,2], 5)`,
query box `[0,2]` (contained) and payload 7 (matching no leaf): the result
is still `true`. -/
theorem remove_result_is_containment_witness :
    removeT box1Ops natEq 10 (some (.leaf (⟨0, 2⟩ : Box1) 5)) ⟨0, 2⟩ 7 =
        some (true, some (.leaf ⟨0, 2⟩ 5)) ∧
      ((true, some (Node.leaf (⟨0, 2⟩ : Box1) 5)) :
          Bool × AABBTree Box1 Nat).1 =
        box1Ops.contains (Node.leaf (⟨0, 2⟩ : Box1) 5).bounds ⟨0, 2⟩ :=
  ⟨by decide,
    remove_result_is_containment_test box1Ops natEq 10 (.leaf ⟨0, 2⟩ 5)
      ⟨0, 2⟩ 7 (true, some (.leaf ⟨0, 2⟩ 5)) (by decide)⟩
